import Mathlib

/-!
Verification of the LockerRentalApp client against its specification.

The repository is a React Native client for a locker-rental service. The
parts that the verified claims exercise are translated here as a shallow
embedding:

* geographic coordinates and map regions use exact rationals, mirroring
  the JS number arithmetic, which is exact on the decimal literals and
  the additions, subtractions, multiplications and halvings involved;
* the haversine distance function uses real numbers with the standard
  trigonometric functions, with JS Math.atan2 modelled by Complex.arg
  (the complex argument of x + y*i is exactly atan2 y x);
* Redux reducers become pure functions from state and payload to state;
* Date values become epoch milliseconds as rationals.

Structure fields that no claim reads (names, addresses, images, and the
like) are omitted from the embedded records; each embedded operation
reads exactly the fields its source counterpart reads.
-/

namespace LockerRental

/-- Booking status values, from src/types/index.ts. -/
inductive BookingStatus
| pending
| confirmed
| active
| completed
| cancelled
| expired
deriving DecidableEq, Repr

/-- GeoJSON point of a business: `coordinates` is a two-element
`[longitude, latitude]` pair (index 0 = longitude, index 1 = latitude),
from src/types/index.ts. The pair component `.1` is index 0 and `.2`
is index 1. -/
structure GeoPoint where
coordinates : ℚ × ℚ
deriving DecidableEq, Repr

/-- A business, reduced to the field the map code reads. -/
structure Business where
location : GeoPoint
deriving DecidableEq, Repr

/-- A user location as held by BusinessMap props. -/
structure UserLocation where
latitude : ℚ
longitude : ℚ
deriving DecidableEq, Repr

/-- A map region: center plus zoom deltas, as in react-native-maps. -/
structure Region where
latitude : ℚ
longitude : ℚ
latitudeDelta : ℚ
longitudeDelta : ℚ
deriving DecidableEq, Repr

/-- The fixed default city region (downtown Atlanta), from
src/components/BusinessMap.tsx lines 27-32. -/
def atlantaRegion : Region :=
{ latitude := 33.7490
  longitude := -84.3880
  latitudeDelta := 0.0922
  longitudeDelta := 0.0421 }

/-- `calculateOptimalRegion` from src/components/BusinessMap.tsx lines
38-87: midpoint center, spans padded by 2.5 and floored at 0.05. -/
def calculateOptimalRegion (userLoc : UserLocation) (nearestBusiness : Business) : Region :=
  let businessLat := nearestBusiness.location.coordinates.2
  let businessLng := nearestBusiness.location.coordinates.1
  let centerLat := (userLoc.latitude + businessLat) / 2
  let centerLng := (userLoc.longitude + businessLng) / 2
  let latDiff := |userLoc.latitude - businessLat|
  let lngDiff := |userLoc.longitude - businessLng|
  let paddingFactor : ℚ := 2.5
  let minDelta : ℚ := 0.05
  let latitudeDelta := max (latDiff * paddingFactor) minDelta
  let longitudeDelta := max (lngDiff * paddingFactor) minDelta
  { latitude := centerLat
    longitude := centerLng
    latitudeDelta := latitudeDelta
    longitudeDelta := longitudeDelta }

/-- The region chosen by the BusinessMap useEffect, src/components/
BusinessMap.tsx lines 89-191: the four priority rules in order. -/
def computeRegion (userLocation : Option UserLocation) (businesses : List Business) : Region :=
  match userLocation, businesses with
  | some u, b :: _ => calculateOptimalRegion u b
  | some u, [] =>
      { latitude := u.latitude
        longitude := u.longitude
        latitudeDelta := 0.0922
        longitudeDelta := 0.0421 }
  | none, b :: _ =>
      { latitude := b.location.coordinates.2
        longitude := b.location.coordinates.1
        latitudeDelta := 0.0922
        longitudeDelta := 0.0421 }
  | none, [] => atlantaRegion

/-- C1: with a user location and a non-empty business list, the region
is centered at the coordinate-wise midpoint of the user and the first
business (latitude read from coordinates index 1, longitude from index
0), with latitudeDelta = max of the absolute latitude difference times
2.5 and 0.05, and longitudeDelta likewise. -/
theorem c1_optimal_region (u : UserLocation) (bs : List Business) (h : bs ≠ []) :
    computeRegion (some u) bs =
      { latitude := (u.latitude + (bs.head h).location.coordinates.2) / 2
        longitude := (u.longitude + (bs.head h).location.coordinates.1) / 2
        latitudeDelta := max (|u.latitude - (bs.head h).location.coordinates.2| * 2.5) 0.05
        longitudeDelta := max (|u.longitude - (bs.head h).location.coordinates.1| * 2.5) 0.05 } := by
  match bs with
  | b :: t => rfl

/-- Witness for C1 at the scenario from the specification: user at
(33.9427, -84.4407) and nearest business at latitude 33.7729,
longitude -84.3627. -/
theorem c1_witness :
    computeRegion (some ⟨33.9427, -84.4407⟩) [⟨⟨(-84.3627, 33.7729)⟩⟩] =
      { latitude := 33.8578
        longitude := -84.4017
        latitudeDelta := 0.4245
        longitudeDelta := 0.195 } := by
  rw [c1_optimal_region ⟨33.9427, -84.4407⟩ [⟨⟨(-84.3627, 33.7729)⟩⟩] (List.cons_ne_nil _ _)]
  simp only [List.head_cons, Region.mk.injEq]
  refine ⟨by norm_num, by norm_num, ?_, ?_⟩
  · rw [show |(33.9427 : ℚ) - 33.7729| = 0.1698 by rw [abs_of_nonneg] <;> norm_num]
    rw [max_eq_left (by norm_num)]
    norm_num
  · rw [show |(-84.4407 : ℚ) - -84.3627| = 0.078 by rw [abs_of_nonpos] <;> norm_num]
    rw [max_eq_left (by norm_num)]
    norm_num

/-- C3 counterexample: when the user location coincides with the first
business at downtown Atlanta, the computed center equals the fixed
metro-default (Atlanta) center exactly, refuting `the center never
equals the fixed metro-default center`; and that center equals the user
point, so it is not strictly between the two (coincident) points. -/
theorem c3_counterexample :
    (computeRegion (some ⟨33.7490, -84.3880⟩) [⟨⟨(-84.3880, 33.7490)⟩⟩]).latitude
        = atlantaRegion.latitude ∧
    (computeRegion (some ⟨33.7490, -84.3880⟩) [⟨⟨(-84.3880, 33.7490)⟩⟩]).longitude
        = atlantaRegion.longitude := by
  constructor
  · show ((33.7490 : ℚ) + 33.7490) / 2 = 33.7490
    norm_num
  · show ((-84.3880 : ℚ) + -84.3880) / 2 = -84.3880
    norm_num

/-- C3 amended: with a user location and a non-empty business list the
region always has latitudeDelta at least 0.05 and its center is the
coordinate-wise midpoint of the user point and the first-business
point; when the two points differ the center differs from both of them
(strict betweenness); the center can coincide with the metro-default
center when the midpoint happens to land there. -/
theorem c3_region_geometry (u : UserLocation) (bs : List Business) (h : bs ≠ []) :
    (0.05 : ℚ) ≤ (computeRegion (some u) bs).latitudeDelta ∧
    (computeRegion (some u) bs).latitude
        = (u.latitude + (bs.head h).location.coordinates.2) / 2 ∧
    (computeRegion (some u) bs).longitude
        = (u.longitude + (bs.head h).location.coordinates.1) / 2 ∧
    ((u.latitude, u.longitude)
          ≠ ((bs.head h).location.coordinates.2, (bs.head h).location.coordinates.1) →
      ((computeRegion (some u) bs).latitude ≠ u.latitude ∨
        (computeRegion (some u) bs).longitude ≠ u.longitude) ∧
      ((computeRegion (some u) bs).latitude ≠ (bs.head h).location.coordinates.2 ∨
        (computeRegion (some u) bs).longitude ≠ (bs.head h).location.coordinates.1)) := by
  match bs with
  | b :: t =>
    simp only [List.head_cons]
    refine ⟨le_max_right _ _, rfl, rfl, ?_⟩
    intro hne
    set bl := b.location.coordinates.2 with hbl
    set bg := b.location.coordinates.1 with hbg
    constructor
    · by_contra hcon
      push_neg at hcon
      obtain ⟨h1, h2⟩ := hcon
      have e1 : bl = u.latitude := by
        have : (u.latitude + bl) / 2 = u.latitude := h1
        linarith
      have e2 : bg = u.longitude := by
        have : (u.longitude + bg) / 2 = u.longitude := h2
        linarith
      exact hne (by rw [e1, e2])
    · by_contra hcon
      push_neg at hcon
      obtain ⟨h1, h2⟩ := hcon
      have e1 : u.latitude = bl := by
        have : (u.latitude + bl) / 2 = bl := h1
        linarith
      have e2 : u.longitude = bg := by
        have : (u.longitude + bg) / 2 = bg := h2
        linarith
      exact hne (by rw [e1, e2])

/-- Witness for C3 at a concrete pair of distinct points: user (1, 2),
business with coordinates pair (4, 3), so business latitude 3 and
longitude 4; the center (2, 3) differs from the user point. -/
theorem c3_witness :
    (computeRegion (some ⟨1, 2⟩) [⟨⟨(4, 3)⟩⟩]).latitude ≠ (1 : ℚ) ∨
    (computeRegion (some ⟨1, 2⟩) [⟨⟨(4, 3)⟩⟩]).longitude ≠ (2 : ℚ) := by
  have h := c3_region_geometry ⟨1, 2⟩ [⟨⟨(4, 3)⟩⟩] (List.cons_ne_nil _ _)
  exact (h.2.2.2 (by simp only [List.head_cons]; norm_num [Prod.ext_iff])).1

/-- C5: the fallback priorities. With only a user location the region
centers exactly on the user with the fixed metro deltas 0.0922 and
0.0421; with only businesses it centers on the first business
(latitude from coordinates index 1, longitude from index 0) with the
same deltas; with neither it is the fixed Atlanta region. -/
theorem c5_fallback_priorities :
    (∀ u : UserLocation,
        computeRegion (some u) [] =
          { latitude := u.latitude
            longitude := u.longitude
            latitudeDelta := 0.0922
            longitudeDelta := 0.0421 }) ∧
    (∀ (b : Business) (rest : List Business),
        computeRegion none (b :: rest) =
          { latitude := b.location.coordinates.2
            longitude := b.location.coordinates.1
            latitudeDelta := 0.0922
            longitudeDelta := 0.0421 }) ∧
    computeRegion none [] = atlantaRegion := by
  exact ⟨fun u => rfl, fun b rest => rfl, rfl⟩

/-- A booking, reduced to the fields the verified operations read:
identity, status, and start/end instants in epoch milliseconds. -/
structure Booking where
id : String
status : BookingStatus
startTime : ℚ
endTime : ℚ
deriving DecidableEq, Repr

/-- `canCancelBooking` from the BookingsScreen (src/components/
LoadingSpinner.tsx bundle, lines 155-166): false for completed or
cancelled bookings, otherwise true when the number of hours until the
start time is at least 1 (the source comparison is `>=`). `now` and
`startTime` are epoch milliseconds. -/
def canCancelBooking (booking : Booking) (now : ℚ) : Bool :=
  if booking.status = BookingStatus.completed ∨ booking.status = BookingStatus.cancelled then
    false
  else
    let timeDifference := booking.startTime - now
    let hoursUntilStart := timeDifference / (1000 * 60 * 60)
    decide (1 ≤ hoursUntilStart)

/-- `canCancel` from src/screens/BookingDetailsScreen.tsx line 190:
the details screen offers cancellation exactly when the status is
confirmed or active, with no timing condition at all. -/
def canCancel (booking : Booking) : Bool :=
  decide (booking.status = BookingStatus.confirmed ∨ booking.status = BookingStatus.active)

/-- C2 counterexample: the claimed iff fails on both cited
implementations. First, a confirmed booking whose start time is
exactly one hour away (start 3600000 ms, now 0) is NOT more than one
hour in the future, yet the BookingsScreen `canCancelBooking` allows
cancellation, because the source compares with `>=` rather than a
strict `>`. Second, a confirmed booking starting only ten minutes
away (start 600000 ms, now 0) is allowed by the BookingDetailsScreen
`canCancel`, which never looks at the clock, although the claim says
cancellation is disallowed less than one hour before the start. -/
theorem c2_counterexample :
    (canCancelBooking ⟨"bk1", BookingStatus.confirmed, 3600000, 7200000⟩ 0 = true ∧
      ¬ ((3600000 : ℚ) > 0 + 1000 * 60 * 60)) ∧
    (canCancel ⟨"bk3", BookingStatus.confirmed, 600000, 1200000⟩ = true ∧
      ¬ ((600000 : ℚ) > 0 + 1000 * 60 * 60)) := by
  refine ⟨⟨?_, by norm_num⟩, ⟨?_, by norm_num⟩⟩
  · simp only [canCancelBooking]
    rw [if_neg (by simp), decide_eq_true_iff]
    norm_num
  · rw [canCancel, decide_eq_true_iff]
    exact Or.inl rfl

/-- C2 amended: the client has two distinct cancellation-eligibility
checks. The BookingsScreen `canCancelBooking` allows cancellation if
and only if the status is neither completed nor cancelled and the
start time is at least one hour (3600000 ms) after the current time —
the one-hour boundary itself is allowed, since the source uses a
non-strict comparison. The BookingDetailsScreen `canCancel` allows
cancellation if and only if the status is confirmed or active,
regardless of timing — so it offers cancellation for a confirmed
booking starting under an hour away and never for a pending one. -/
theorem c2_cancel_eligibility (b : Booking) (now : ℚ) :
    (canCancelBooking b now = true ↔
      b.status ≠ BookingStatus.completed ∧ b.status ≠ BookingStatus.cancelled ∧
        now + 1000 * 60 * 60 ≤ b.startTime) ∧
    (canCancel b = true ↔
      b.status = BookingStatus.confirmed ∨ b.status = BookingStatus.active) := by
  constructor
  · unfold canCancelBooking
    by_cases h : b.status = BookingStatus.completed ∨ b.status = BookingStatus.cancelled
    · simp only [h, if_true]
      constructor
      · intro hfalse
        exact absurd hfalse (by simp)
      · rintro ⟨h1, h2, _⟩
        rcases h with h | h
        · exact absurd h h1
        · exact absurd h h2
    · push_neg at h
      rw [if_neg (by tauto), decide_eq_true_iff]
      simp only [h.1, h.2, ne_eq, not_false_eq_true, true_and]
      rw [one_le_div (by norm_num : (0 : ℚ) < 1000 * 60 * 60)]
      constructor <;> intro hle <;> linarith
  · rw [canCancel, decide_eq_true_iff]

/-- Witness for C2: a confirmed booking two hours out is cancellable
on both screens. -/
theorem c2_witness :
    canCancelBooking ⟨"bk2", BookingStatus.confirmed, 7200000, 9000000⟩ 0 = true ∧
    canCancel ⟨"bk2", BookingStatus.confirmed, 7200000, 9000000⟩ = true := by
  constructor
  · exact (c2_cancel_eligibility ⟨"bk2", BookingStatus.confirmed, 7200000, 9000000⟩ 0).1.mpr
      ⟨by simp, by simp, by norm_num⟩
  · exact (c2_cancel_eligibility ⟨"bk2", BookingStatus.confirmed, 7200000, 9000000⟩ 0).2.mpr
      (Or.inl rfl)

/-- The booking slice state, from src/store/bookingSlice.ts lines 5-19. -/
structure BookingState where
bookings : List Booking
activeBookings : List Booking
selectedBooking : Option Booking
isLoading : Bool
error : Option String
deriving DecidableEq, Repr

/-- The JS idiom `const index = list.findIndex(b => b._id === id);
if (index !== -1) list[index] = payload;` used by the update, cancel
and check-in reducers. `List.findIdx` returns the length when nothing
matches, which corresponds to the `index === -1` branch. -/
def replaceFirstById (l : List Booking) (payload : Booking) : List Booking :=
  let index := l.findIdx fun b => b.id == payload.id
  if index < l.length then l.set index payload else l

/-- `createBooking.fulfilled` reducer, src/store/bookingSlice.ts lines
129-136: prepend to bookings, and to activeBookings when the payload
status is active. -/
def createBookingFulfilled (state : BookingState) (payload : Booking) : BookingState :=
  { state with
    isLoading := false
    bookings := payload :: state.bookings
    activeBookings :=
      if payload.status = BookingStatus.active then payload :: state.activeBookings
      else state.activeBookings
    error := none }

/-- `updateBookingStatus.fulfilled` reducer, src/store/bookingSlice.ts
lines 166-184: replace in bookings by id; then push to, remove from,
or replace in activeBookings according to the new status and whether
the id was already present; refresh selectedBooking when it matches. -/
def updateBookingStatusFulfilled (state : BookingState) (payload : Booking) : BookingState :=
  let bookings := replaceFirstById state.bookings payload
  let activeIndex := state.activeBookings.findIdx fun b => b.id == payload.id
  let activeBookings :=
    if payload.status = BookingStatus.active ∧ ¬ activeIndex < state.activeBookings.length then
      state.activeBookings ++ [payload]
    else if payload.status ≠ BookingStatus.active ∧ activeIndex < state.activeBookings.length then
      state.activeBookings.eraseIdx activeIndex
    else if activeIndex < state.activeBookings.length then
      state.activeBookings.set activeIndex payload
    else state.activeBookings
  let selectedBooking :=
    if state.selectedBooking.any fun b => b.id == payload.id then some payload
    else state.selectedBooking
  { state with
    bookings := bookings
    activeBookings := activeBookings
    selectedBooking := selectedBooking }

/-- `cancelBooking.fulfilled` reducer, src/store/bookingSlice.ts lines
192-208: replace in bookings by id; remove from activeBookings when
present; refresh selectedBooking; clear loading and error. -/
def cancelBookingFulfilled (state : BookingState) (payload : Booking) : BookingState :=
  let bookings := replaceFirstById state.bookings payload
  let activeIndex := state.activeBookings.findIdx fun b => b.id == payload.id
  let activeBookings :=
    if activeIndex < state.activeBookings.length then
      state.activeBookings.eraseIdx activeIndex
    else state.activeBookings
  let selectedBooking :=
    if state.selectedBooking.any fun b => b.id == payload.id then some payload
    else state.selectedBooking
  { state with
    isLoading := false
    bookings := bookings
    activeBookings := activeBookings
    selectedBooking := selectedBooking
    error := none }

lemma findIdx_lt_length_iff_exists (l : List Booking) (pid : String) :
    (l.findIdx fun b => b.id == pid) < l.length ↔ ∃ b ∈ l, b.id = pid := by
  induction l with
  | nil => simp
  | cons x t ih =>
    by_cases hx : x.id = pid
    · have hbeq : (x.id == pid) = true := beq_iff_eq.mpr hx
      simp [List.findIdx_cons, hbeq, hx]
    · have hbeq : (x.id == pid) = false := beq_eq_false_iff_ne.mpr hx
      simp only [List.findIdx_cons, hbeq, cond_false, List.length_cons,
        Nat.succ_lt_succ_iff, ih, List.mem_cons]
      constructor
      · rintro ⟨b, hb, hbid⟩
        exact ⟨b, Or.inr hb, hbid⟩
      · rintro ⟨b, hb | hb, hbid⟩
        · exact absurd (hb ▸ hbid) hx
        · exact ⟨b, hb, hbid⟩

lemma replaceFirstById_eq_map (l : List Booking) (p : Booking)
    (hnd : (l.map Booking.id).Nodup) :
    replaceFirstById l p = l.map fun b => if b.id = p.id then p else b := by
  induction l with
  | nil => rfl
  | cons x t ih =>
    simp only [List.map_cons, List.nodup_cons, List.mem_map] at hnd
    by_cases hx : x.id = p.id
    · have hfind : ((x :: t).findIdx fun b => b.id == p.id) = 0 := by
        simp [List.findIdx_cons, beq_iff_eq.mpr hx]
      have htmap : (t.map fun b => if b.id = p.id then p else b) = t := by
        apply List.map_congr_left ?_ |>.trans (List.map_id t)
        intro b hb
        have : b.id ≠ p.id := fun hc => hnd.1 ⟨b, hb, hc.trans hx.symm⟩
        simp [this]
      simp [replaceFirstById, hfind, hx, htmap]
    · have hfind : ((x :: t).findIdx fun b => b.id == p.id)
          = (t.findIdx fun b => b.id == p.id) + 1 := by
        simp [List.findIdx_cons, beq_eq_false_iff_ne.mpr hx]
      rw [replaceFirstById] at ih ⊢
      simp only [hfind, List.length_cons, Nat.succ_lt_succ_iff, List.set_cons_succ,
        List.map_cons, if_neg hx]
      by_cases hlt : (t.findIdx fun b => b.id == p.id) < t.length
      · rw [if_pos hlt, ← ih hnd.2, if_pos hlt]
      · rw [if_neg hlt, ← ih hnd.2, if_neg hlt]

lemma eraseIdx_findIdx_no_match (l : List Booking) (pid : String)
    (hnd : (l.map Booking.id).Nodup) :
    ∀ b ∈ l.eraseIdx (l.findIdx fun b => b.id == pid), b.id ≠ pid := by
  induction l with
  | nil => simp
  | cons x t ih =>
    simp only [List.map_cons, List.nodup_cons, List.mem_map] at hnd
    by_cases hx : x.id = pid
    · have hfind : ((x :: t).findIdx fun b => b.id == pid) = 0 := by
        simp [List.findIdx_cons, beq_iff_eq.mpr hx]
      rw [hfind, List.eraseIdx_cons_zero]
      intro b hb hc
      exact hnd.1 ⟨b, hb, hc.trans hx.symm⟩
    · have hfind : ((x :: t).findIdx fun b => b.id == pid)
          = (t.findIdx fun b => b.id == pid) + 1 := by
        simp [List.findIdx_cons, beq_eq_false_iff_ne.mpr hx]
      rw [hfind, List.eraseIdx_cons_succ]
      intro b hb
      rcases List.mem_cons.mp hb with hb | hb
      · exact hb ▸ hx
      · exact ih hnd.2 b hb

lemma mem_set_self (l : List Booking) (i : ℕ) (a : Booking) (h : i < l.length) :
    a ∈ l.set i a := by
  induction l generalizing i with
  | nil => simp at h
  | cons x t ih =>
    cases i with
    | zero => simp
    | succ n =>
      rw [List.set_cons_succ]
      exact List.mem_cons_of_mem x (ih n (Nat.succ_lt_succ_iff.mp h))

/-- C6: booking-state merge rules. Creation prepends to `bookings`
and prepends to `activeBookings` exactly when the status is active. A
status update replaces the id-matched entry in `bookings` in place
(stated as a pointwise map, which under distinct ids coincides with
replacing the first match) and leaves an entry with the payload id in
`activeBookings` if and only if the new status is active. A
cancellation replaces the id-matched entry in `bookings` in place and,
since a cancellation result carries a non-active status, leaves no
entry with the payload id in `activeBookings`. Both list invariants
assume the state holds each booking id at most once, the invariant the
store maintains. -/
theorem c6_booking_merge_rules (s : BookingState) (p : Booking)
    (hbk : (s.bookings.map Booking.id).Nodup)
    (hact : (s.activeBookings.map Booking.id).Nodup) :
    ((createBookingFulfilled s p).bookings = p :: s.bookings ∧
      (createBookingFulfilled s p).activeBookings =
        (if p.status = BookingStatus.active then p :: s.activeBookings
         else s.activeBookings)) ∧
    ((updateBookingStatusFulfilled s p).bookings
        = (s.bookings.map fun b => if b.id = p.id then p else b) ∧
      ((∃ b ∈ (updateBookingStatusFulfilled s p).activeBookings, b.id = p.id)
        ↔ p.status = BookingStatus.active)) ∧
    ((cancelBookingFulfilled s p).bookings
        = (s.bookings.map fun b => if b.id = p.id then p else b) ∧
      (p.status ≠ BookingStatus.active →
        ¬ ∃ b ∈ (cancelBookingFulfilled s p).activeBookings, b.id = p.id)) := by
  refine ⟨⟨rfl, rfl⟩,
    ⟨replaceFirstById_eq_map s.bookings p hbk, ?_⟩,
    ⟨replaceFirstById_eq_map s.bookings p hbk, ?_⟩⟩
  · have hA : (updateBookingStatusFulfilled s p).activeBookings =
        (if p.status = BookingStatus.active ∧
            ¬ (s.activeBookings.findIdx fun b => b.id == p.id) < s.activeBookings.length then
          s.activeBookings ++ [p]
        else if p.status ≠ BookingStatus.active ∧
            (s.activeBookings.findIdx fun b => b.id == p.id) < s.activeBookings.length then
          s.activeBookings.eraseIdx (s.activeBookings.findIdx fun b => b.id == p.id)
        else if (s.activeBookings.findIdx fun b => b.id == p.id) < s.activeBookings.length then
          s.activeBookings.set (s.activeBookings.findIdx fun b => b.id == p.id) p
        else s.activeBookings) := rfl
    rw [hA]
    by_cases hst : p.status = BookingStatus.active
    · by_cases hlt :
          (s.activeBookings.findIdx fun b => b.id == p.id) < s.activeBookings.length
      · rw [if_neg (fun hc => hc.2 hlt), if_neg (fun hc => hc.1 hst), if_pos hlt]
        exact iff_of_true ⟨p, mem_set_self _ _ _ hlt, rfl⟩ hst
      · rw [if_pos ⟨hst, hlt⟩]
        exact iff_of_true ⟨p, by simp, rfl⟩ hst
    · by_cases hlt :
          (s.activeBookings.findIdx fun b => b.id == p.id) < s.activeBookings.length
      · rw [if_neg (fun hc => hst hc.1), if_pos ⟨hst, hlt⟩]
        refine iff_of_false ?_ hst
        rintro ⟨b, hb, hbid⟩
        exact eraseIdx_findIdx_no_match _ _ hact b hb hbid
      · rw [if_neg (fun hc => hst hc.1), if_neg (fun hc => hlt hc.2), if_neg hlt]
        refine iff_of_false ?_ hst
        rintro ⟨b, hb, hbid⟩
        exact hlt ((findIdx_lt_length_iff_exists _ _).mpr ⟨b, hb, hbid⟩)
  · intro hst
    have hA : (cancelBookingFulfilled s p).activeBookings =
        (if (s.activeBookings.findIdx fun b => b.id == p.id) < s.activeBookings.length then
          s.activeBookings.eraseIdx (s.activeBookings.findIdx fun b => b.id == p.id)
        else s.activeBookings) := rfl
    rw [hA]
    by_cases hlt :
        (s.activeBookings.findIdx fun b => b.id == p.id) < s.activeBookings.length
    · rw [if_pos hlt]
      rintro ⟨b, hb, hbid⟩
      exact eraseIdx_findIdx_no_match _ _ hact b hb hbid
    · rw [if_neg hlt]
      rintro ⟨b, hb, hbid⟩
      exact hlt ((findIdx_lt_length_iff_exists _ _).mpr ⟨b, hb, hbid⟩)

/-- Witness for C6: cancelling the single booking "a" (previously
active) replaces it in place with the cancelled payload. -/
theorem c6_witness :
    (cancelBookingFulfilled
        { bookings := [⟨"a", BookingStatus.active, 0, 1⟩]
          activeBookings := [⟨"a", BookingStatus.active, 0, 1⟩]
          selectedBooking := none
          isLoading := false
          error := none }
        ⟨"a", BookingStatus.cancelled, 0, 1⟩).bookings
      = [⟨"a", BookingStatus.cancelled, 0, 1⟩] := by
  have h := c6_booking_merge_rules
      { bookings := [⟨"a", BookingStatus.active, 0, 1⟩]
        activeBookings := [⟨"a", BookingStatus.active, 0, 1⟩]
        selectedBooking := none
        isLoading := false
        error := none }
      ⟨"a", BookingStatus.cancelled, 0, 1⟩ (by simp) (by simp)
  rw [h.2.2.1]
  simp

/-- Search parameters, from src/types/index.ts `SearchBusinessesRequest`
(all fields optional). -/
structure SearchBusinessesRequest where
latitude : Option ℚ
longitude : Option ℚ
radius : Option ℚ
zipCode : Option String
businessType : Option String
name : Option String
deriving DecidableEq, Repr

/-- The business slice state, src/store/businessSlice.ts lines 6-22. -/
structure BusinessState where
businesses : List Business
selectedBusiness : Option Business
nearbyBusinesses : List Business
isLoading : Bool
error : Option String
searchParams : Option SearchBusinessesRequest
deriving DecidableEq, Repr

/-- `searchBusinesses.rejected` reducer, src/store/businessSlice.ts
lines 166-169. -/
def searchBusinessesRejected (state : BusinessState) (payload : String) : BusinessState :=
  { state with isLoading := false, error := some payload }

/-- `fetchNearbyBusinesses.rejected` reducer, src/store/businessSlice.ts
lines 182-185. -/
def fetchNearbyBusinessesRejected (state : BusinessState) (payload : String) : BusinessState :=
  { state with isLoading := false, error := some payload }

/-- `fetchBusinessById.rejected` reducer, src/store/businessSlice.ts
lines 198-201. -/
def fetchBusinessByIdRejected (state : BusinessState) (payload : String) : BusinessState :=
  { state with isLoading := false, error := some payload }

/-- `createBooking.rejected` reducer, src/store/bookingSlice.ts lines
137-140. -/
def createBookingRejected (state : BookingState) (payload : String) : BookingState :=
  { state with isLoading := false, error := some payload }

/-- `fetchUserBookings.rejected` reducer, src/store/bookingSlice.ts
lines 153-156. -/
def fetchUserBookingsRejected (state : BookingState) (payload : String) : BookingState :=
  { state with isLoading := false, error := some payload }

/-- `cancelBooking.rejected` reducer, src/store/bookingSlice.ts lines
209-212. -/
def cancelBookingRejected (state : BookingState) (payload : String) : BookingState :=
  { state with isLoading := false, error := some payload }

/-- A user, reduced to identity; no verified operation reads the other
fields. -/
structure User where
id : String
deriving DecidableEq, Repr

/-- The auth slice state, from the authSlice source lines 6-20. -/
structure AuthState where
user : Option User
token : Option String
isLoading : Bool
isAuthenticated : Bool
error : Option String
deriving DecidableEq, Repr

/-- `loginUser.rejected` reducer, authSlice source lines 131-135. -/
def loginUserRejected (state : AuthState) (payload : String) : AuthState :=
  { state with isLoading := false, error := some payload, isAuthenticated := false }

/-- `registerUser.rejected` reducer, authSlice source lines 150-154. -/
def registerUserRejected (state : AuthState) (payload : String) : AuthState :=
  { state with isLoading := false, error := some payload, isAuthenticated := false }

/-- `updateProfile.rejected` reducer, authSlice source lines 192-195. -/
def updateProfileRejected (state : AuthState) (payload : String) : AuthState :=
  { state with isLoading := false, error := some payload }

/-- `loadStoredAuth.rejected` reducer, authSlice source lines 167-170:
it clears the loading and authenticated flags but stores NO error
string (the only rejected handler in the three slices that does not). -/
def loadStoredAuthRejected (state : AuthState) : AuthState :=
  { state with isLoading := false, isAuthenticated := false }

/-- C7 counterexample: `loadStoredAuth` is a state-container operation
of the auth container, yet its failure phase stores no
user-displayable error string — dispatched on a state with no error,
the error field is still empty afterwards, refuting `the failure phase
... stores a user-displayable error string` for every operation. -/
theorem c7_counterexample :
    (loadStoredAuthRejected
        { user := none, token := none, isLoading := true,
          isAuthenticated := false, error := none }).isLoading = false ∧
    (loadStoredAuthRejected
        { user := none, token := none, isLoading := true,
          isAuthenticated := false, error := none }).error = none := ⟨rfl, rfl⟩

/-- C7 amended: for every rejected handler the three slices register,
the failure phase sets the loading flag to false and leaves all
previously held data (businesses, nearby list, selected business,
search params, bookings, active bookings, selected booking, user,
token) unchanged; every such handler except `loadStoredAuth.rejected`
also stores the rejection payload as the error string, while
`loadStoredAuth.rejected` stores no error and additionally clears the
authenticated flag. -/
theorem c7_rejected_failure_phase (e : String)
    (bs : BusinessState) (ks : BookingState) (sa : AuthState) :
    searchBusinessesRejected bs e
        = { bs with isLoading := false, error := some e } ∧
    fetchNearbyBusinessesRejected bs e
        = { bs with isLoading := false, error := some e } ∧
    fetchBusinessByIdRejected bs e
        = { bs with isLoading := false, error := some e } ∧
    createBookingRejected ks e
        = { ks with isLoading := false, error := some e } ∧
    fetchUserBookingsRejected ks e
        = { ks with isLoading := false, error := some e } ∧
    cancelBookingRejected ks e
        = { ks with isLoading := false, error := some e } ∧
    loginUserRejected sa e
        = { sa with isLoading := false, isAuthenticated := false, error := some e } ∧
    registerUserRejected sa e
        = { sa with isLoading := false, isAuthenticated := false, error := some e } ∧
    updateProfileRejected sa e
        = { sa with isLoading := false, error := some e } ∧
    loadStoredAuthRejected sa
        = { sa with isLoading := false, isAuthenticated := false } :=
  ⟨rfl, rfl, rfl, rfl, rfl, rfl, rfl, rfl, rfl, rfl⟩

/-- The two persisted storage keys the client writes, as held by
AsyncStorage: the session token under auth_token and the cached user
record under user_data. -/
structure PersistedStorage where
authToken : Option String
userData : Option String
deriving DecidableEq, Repr

/-- The error branch of the response interceptor, src/services/api.ts
lines 44-55: on a response with status 401 both persisted keys are
removed; otherwise storage is untouched and the error is passed
through. The interceptor is installed once on the shared axios
instance, so it applies uniformly to every API operation; `status` is
`error.response?.status` (none when no response arrived). -/
def responseInterceptorOnError (status : Option ℕ) (storage : PersistedStorage) :
    PersistedStorage :=
  if status = some 401 then { storage with authToken := none, userData := none }
  else storage

/-- C8: a 401 response clears both the persisted token and the cached
user record, and any non-401 outcome leaves storage unchanged. Since
the single interceptor is shared by every operation, this holds
independently of which endpoint triggered the response. -/
theorem c8_session_clear_on_401 (status : Option ℕ) (storage : PersistedStorage) :
    (status = some 401 →
      (responseInterceptorOnError status storage).authToken = none ∧
      (responseInterceptorOnError status storage).userData = none) ∧
    (status ≠ some 401 → responseInterceptorOnError status storage = storage) := by
  constructor
  · intro h
    rw [responseInterceptorOnError, if_pos h]
    exact ⟨rfl, rfl⟩
  · intro h
    rw [responseInterceptorOnError, if_neg h]

/-- Witness for C8: a 401 wipes a populated storage; a 200 leaves it
intact. -/
theorem c8_witness :
    (responseInterceptorOnError (some 401) ⟨some "tok", some "usr"⟩).authToken = none ∧
    responseInterceptorOnError (some 200) ⟨some "tok", some "usr"⟩
      = (⟨some "tok", some "usr"⟩ : PersistedStorage) :=
  ⟨((c8_session_clear_on_401 (some 401) ⟨some "tok", some "usr"⟩).1 rfl).1,
    (c8_session_clear_on_401 (some 200) ⟨some "tok", some "usr"⟩).2 (by simp)⟩

/-- C9: the rejected login and registration reducers set the loading
and authenticated flags to false and record the error string, while
leaving the previously stored user and token unchanged. -/
theorem c9_auth_rejected_frame (s : AuthState) (e : String) :
    (loginUserRejected s e).isLoading = false ∧
    (loginUserRejected s e).isAuthenticated = false ∧
    (loginUserRejected s e).error = some e ∧
    (loginUserRejected s e).user = s.user ∧
    (loginUserRejected s e).token = s.token ∧
    (registerUserRejected s e).isLoading = false ∧
    (registerUserRejected s e).isAuthenticated = false ∧
    (registerUserRejected s e).error = some e ∧
    (registerUserRejected s e).user = s.user ∧
    (registerUserRejected s e).token = s.token :=
  ⟨rfl, rfl, rfl, rfl, rfl, rfl, rfl, rfl, rfl, rfl⟩

/-- `displayBusinesses` from src/screens/SearchScreen.tsx lines 46-60:
explicit search results when non-empty, else the nearby list when
non-empty, else the empty list. -/
def displayBusinesses (businesses nearbyBusinesses : List Business) : List Business :=
  if businesses.length > 0 then businesses
  else if nearbyBusinesses.length > 0 then nearbyBusinesses
  else []

/-- C10: explicit search results take precedence — shown whenever
non-empty; the nearby list is shown only when the search list is
empty; with both empty the displayed list is empty. -/
theorem c10_display_precedence (businesses nearbyBusinesses : List Business) :
    (businesses ≠ [] → displayBusinesses businesses nearbyBusinesses = businesses) ∧
    (businesses = [] → nearbyBusinesses ≠ [] →
      displayBusinesses businesses nearbyBusinesses = nearbyBusinesses) ∧
    (businesses = [] → nearbyBusinesses = [] →
      displayBusinesses businesses nearbyBusinesses = []) := by
  refine ⟨?_, ?_, ?_⟩
  · intro h
    rw [displayBusinesses, if_pos (List.length_pos.mpr h)]
  · intro h1 h2
    rw [displayBusinesses, if_neg (by simp [h1]), if_pos (List.length_pos.mpr h2)]
  · intro h1 h2
    rw [displayBusinesses, if_neg (by simp [h1]), if_neg (by simp [h2])]

/-- Witness for C10: with no explicit results, the nearby list is
displayed. -/
theorem c10_witness :
    displayBusinesses [] [⟨⟨(5, 6)⟩⟩] = [⟨⟨(5, 6)⟩⟩] :=
  (c10_display_precedence [] [⟨⟨(5, 6)⟩⟩]).2.1 rfl (List.cons_ne_nil _ _)

/-- `deg2rad` from the LocationService: degrees times pi over 180. -/
noncomputable def deg2rad (deg : ℝ) : ℝ := deg * (Real.pi / 180)

/-- JS `Math.atan2(y, x)`, modelled as the complex argument of
x + y*i, which agrees with atan2 on all real inputs (both return 0 at
the origin and take values in (-pi, pi]). -/
noncomputable def atan2 (y x : ℝ) : ℝ := Complex.arg ⟨x, y⟩

/-- The intermediate value `a` of `LocationService.calculateDistance`
(LocationService source lines 147-158): the haversine of the latitude
difference plus the product of the cosines with the haversine of the
longitude difference. -/
noncomputable def haversineA (lat1 lon1 lat2 lon2 : ℝ) : ℝ :=
  Real.sin (deg2rad (lat2 - lat1) / 2) * Real.sin (deg2rad (lat2 - lat1) / 2) +
    Real.cos (deg2rad lat1) * Real.cos (deg2rad lat2) *
      Real.sin (deg2rad (lon2 - lon1) / 2) * Real.sin (deg2rad (lon2 - lon1) / 2)

/-- `LocationService.calculateDistance`: kilometers between two
points, Earth radius 6371, via `c = 2 * atan2(sqrt a, sqrt (1 - a))`. -/
noncomputable def calculateDistance (lat1 lon1 lat2 lon2 : ℝ) : ℝ :=
  6371 * (2 * atan2 (Real.sqrt (haversineA lat1 lon1 lat2 lon2))
    (Real.sqrt (1 - haversineA lat1 lon1 lat2 lon2)))

lemma atan2_zero_one : atan2 0 1 = 0 := by
  unfold atan2
  have h : (⟨1, 0⟩ : ℂ) = 1 := by
    apply Complex.ext <;> simp
  rw [h, Complex.arg_one]

lemma haversineA_symm (lat1 lon1 lat2 lon2 : ℝ) :
    haversineA lat1 lon1 lat2 lon2 = haversineA lat2 lon2 lat1 lon1 := by
  have hneg : ∀ u v : ℝ,
      Real.sin (deg2rad (u - v) / 2) = -Real.sin (deg2rad (v - u) / 2) := by
    intro u v
    have h : deg2rad (u - v) / 2 = -(deg2rad (v - u) / 2) := by
      unfold deg2rad
      ring
    rw [h, Real.sin_neg]
  unfold haversineA
  rw [hneg lat2 lat1, hneg lon2 lon1]
  ring

lemma distance_zero_of_a_zero (lat1 lon1 lat2 lon2 : ℝ)
    (h : haversineA lat1 lon1 lat2 lon2 = 0) :
    calculateDistance lat1 lon1 lat2 lon2 = 0 := by
  unfold calculateDistance
  rw [h]
  rw [Real.sqrt_zero, show (1 : ℝ) - 0 = 1 by ring, Real.sqrt_one, atan2_zero_one]
  ring

/-- C4 counterexample: the two coordinate pairs (0, 0) and (0, 360)
are distinct, yet the haversine distance between them is 0, because a
360 degree longitude difference has haversine zero — so `zero iff
equal` fails in the `zero implies equal` direction. -/
theorem c4_counterexample :
    calculateDistance 0 0 0 360 = 0 ∧
    ((0 : ℝ), (0 : ℝ)) ≠ ((0 : ℝ), (360 : ℝ)) := by
  constructor
  · apply distance_zero_of_a_zero
    unfold haversineA
    have h0 : deg2rad (0 - 0) = 0 := by
      unfold deg2rad
      ring
    have hpi : deg2rad (360 - 0) / 2 = Real.pi := by
      unfold deg2rad
      ring
    rw [h0, hpi, Real.sin_pi]
    simp
  · intro h
    have := congrArg Prod.snd h
    norm_num at this

/-- C4 amended: the distance function is symmetric in its two points,
and equal points give distance zero; the converse (zero only for equal
points) does not hold, since coordinates that differ by a full turn
also give zero. -/
theorem c4_distance_symm (lat1 lon1 lat2 lon2 : ℝ) :
    calculateDistance lat1 lon1 lat2 lon2 = calculateDistance lat2 lon2 lat1 lon1 ∧
    ((lat1, lon1) = (lat2, lon2) → calculateDistance lat1 lon1 lat2 lon2 = 0) := by
  constructor
  · unfold calculateDistance
    rw [haversineA_symm]
  · intro h
    rw [Prod.mk.injEq] at h
    obtain ⟨h1, h2⟩ := h
    subst h1
    subst h2
    apply distance_zero_of_a_zero
    unfold haversineA
    simp [deg2rad]

/-- Witness for C4: the distance from a point to itself is zero. -/
theorem c4_witness : calculateDistance 12 34 12 34 = 0 :=
  (c4_distance_symm 12 34 12 34).2 rfl

end LockerRental
